import Mathlib

/-!
Verification of the RouteMaster real-time bus-tracking backend.

This file embeds the real-time core of the backend in Lean 4 and proves
properties of it: the location throttle (`src/utils/locationThrottle.ts`),
the bus location service (`src/services/busService.ts`), the `driver:move`
socket handler (`src/sockets/index.ts`), the staleness worker
(`src/workers/staleMonitor.ts`), the ETA worker (`src/workers/etaWorker.ts`)
and the nearby-buses read endpoint (`src/controllers/busController.ts`).

Modelling conventions:
- JavaScript numbers are modelled as real numbers (`ℝ`) where the source
  performs real arithmetic (coordinates, speeds, Haversine distances), and
  as integers (`ℤ`) for millisecond `Date` timestamps.  `Math.round` is
  Mathlib's `round` (floor of `x + 1/2`, which agrees with JS round
  half-up).  The one place the source can produce `NaN` (a division by
  zero in the ETA worker's `routeProgress`) is modelled by an `Option`
  that is `none` exactly when the JS value is `NaN`.
- MongoDB collections are modelled as lists of records; `findOneAndUpdate`
  on the unique `busId` key is a map that rewrites the matching record.
  `Array.prototype.sort` (stable since ES2019) is `List.mergeSort`.
- Fields the relevant code paths merely carry through unchanged
  (`passengers`, `maxCapacity`, populated driver documents) are omitted
  from the record types; no claim mentions them.
-/

namespace RouteMaster

/-! ## Haversine distance (`calculateDistance` in locationThrottle.ts,
busController.ts and etaWorker.ts — the three copies are identical). -/

/-- JavaScript `Math.atan2 (y, x)`. -/
noncomputable def atan2 (y x : ℝ) : ℝ :=
  if 0 < x then Real.arctan (y / x)
  else if x < 0 then
    (if 0 ≤ y then Real.arctan (y / x) + Real.pi else Real.arctan (y / x) - Real.pi)
  else if 0 < y then Real.pi / 2
  else if y < 0 then -(Real.pi / 2)
  else 0

/-- The Haversine great-circle distance in metres, Earth radius
`R = 6371e3` m, exactly as the three identical `calculateDistance`
helpers compute it (arguments in the source order `lat1 lng1 lat2 lng2`). -/
noncomputable def calculateDistance (lat1 lng1 lat2 lng2 : ℝ) : ℝ :=
  let R : ℝ := 6371000
  let phi1 := lat1 * Real.pi / 180
  let phi2 := lat2 * Real.pi / 180
  let dPhi := (lat2 - lat1) * Real.pi / 180
  let dLam := (lng2 - lng1) * Real.pi / 180
  let a := Real.sin (dPhi / 2) * Real.sin (dPhi / 2) +
      Real.cos phi1 * Real.cos phi2 * Real.sin (dLam / 2) * Real.sin (dLam / 2)
  let c := 2 * atan2 (Real.sqrt a) (Real.sqrt (1 - a))
  R * c

/-! ## Location throttle (`LocationThrottler`, locationThrottle.ts).
The throttler keeps one entry per driver (`Map<string, LocationUpdate>`);
since entries for distinct drivers never interact, the state is modelled
as that one driver's entry, `Option ThrottleEntry`. -/

/-- `LocationUpdate`: the stored last accepted sample for a driver
(`coordinates: [lng, lat]`). -/
structure ThrottleEntry where
  timestamp : ℝ
  lng : ℝ
  lat : ℝ

/-- `MIN_TIME_INTERVAL = 2000` ms. -/
def MIN_TIME_INTERVAL : ℝ := 2000

/-- `MIN_DISTANCE = 20` metres. -/
def MIN_DISTANCE : ℝ := 20

/-- `LocationThrottler.shouldUpdate`, returning the boolean result together
with the driver's entry after the call (the method mutates the map). -/
noncomputable def shouldUpdate (prev : Option ThrottleEntry)
    (lng lat timestamp : ℝ) : Bool × Option ThrottleEntry :=
  match prev with
  | none => (true, some ⟨timestamp, lng, lat⟩)
  | some lastUpdate =>
      if timestamp - lastUpdate.timestamp < MIN_TIME_INTERVAL then
        (false, some lastUpdate)
      else if calculateDistance lastUpdate.lat lastUpdate.lng lat lng < MIN_DISTANCE then
        (false, some lastUpdate)
      else
        (true, some ⟨timestamp, lng, lat⟩)

/-- One `driver:move` sample as seen by the throttle. -/
structure Sample where
  lng : ℝ
  lat : ℝ
  ts : ℝ

/-- Feed a list of samples through the throttle, collecting the accepted
ones (the throttle's behaviour over a whole driver session, no eviction). -/
noncomputable def runThrottle : Option ThrottleEntry → List Sample → List Sample
  | _, [] => []
  | st, s :: rest =>
      let r := shouldUpdate st s.lng s.lat s.ts
      if r.1 then s :: runThrottle r.2 rest else runThrottle r.2 rest

/-- The relation the spec asserts between consecutive accepted samples. -/
def acceptedStep (a b : Sample) : Prop :=
  MIN_TIME_INTERVAL ≤ b.ts - a.ts ∧
  MIN_DISTANCE ≤ calculateDistance a.lat a.lng b.lat b.lng

/-- The sample recorded in a throttle entry. -/
def entrySample (e : ThrottleEntry) : Sample := ⟨e.lng, e.lat, e.timestamp⟩

/-! ## Bus state store and bus service (`models/Bus.ts`,
`services/busService.ts`).  A Bus document; `passengers`/`maxCapacity`
are not touched by any path modelled here and are omitted. -/

/-- A document of the `buses` collection (schema defaults make every
field present).  `location.coordinates = [lng, lat]`. -/
structure BusRecord where
  busId : String
  routeId : String
  driverId : String
  online : Bool
  lng : ℝ
  lat : ℝ
  speed : ℝ
  heading : ℝ
  lastUpdateAt : ℤ
  lastOnlineAt : ℤ
  status : String

/-- An `Assignment` document (the fields the queries modelled here read). -/
structure Assignment where
  driverId : String
  busId : String
  routeId : String
  active : Bool
  shiftStart : ℤ
  shiftEnd : ℤ

/-- The `Assignment.findOne({driverId, busId, active: true,
shiftStart ≤ now ≤ shiftEnd})` query of `busService.updateBusLocation`
(`findOne` returns the first matching document). -/
def findActiveAssignment (assignments : List Assignment)
    (driverId busId : String) (now : ℤ) : Option Assignment :=
  assignments.find? fun a =>
    a.driverId == driverId && a.busId == busId && a.active &&
      decide (a.shiftStart ≤ now) && decide (now ≤ a.shiftEnd)

/-- The `{success, bus?, error?}` result shape of the bus service. -/
inductive ServiceResult where
  | ok (bus : BusRecord)
  | err (error : String)

/-- The document produced by the `findOneAndUpdate(..., {upsert: true,
new: true})` of `updateBusLocation`: the listed fields are set (note
`status` is not among them); on insert, `status` takes its schema
default `idle`. -/
def moveBusData (busId routeId driverId : String) (lng lat speed heading : ℝ)
    (now : ℤ) (old : Option BusRecord) : BusRecord :=
  match old with
  | some b =>
      { b with
        routeId := routeId, driverId := driverId, online := true,
        lng := lng, lat := lat, speed := speed, heading := heading,
        lastUpdateAt := now, lastOnlineAt := now }
  | none =>
      { busId := busId, routeId := routeId, driverId := driverId, online := true,
        lng := lng, lat := lat, speed := speed, heading := heading,
        lastUpdateAt := now, lastOnlineAt := now, status := "idle" }

/-- `Bus.findOneAndUpdate({busId}, doc, {upsert: true})` on the store:
replace the first document with this `busId` (the collection has a
unique index on `busId`), or append the new document. -/
def upsertBus : List BusRecord → String → BusRecord → List BusRecord
  | [], _, doc => [doc]
  | b :: rest, busId, doc =>
      if b.busId == busId then doc :: rest else b :: upsertBus rest busId doc

/-- `BusService.updateBusLocation`.  Validation order is exactly the
source's: coordinates, then speed, then heading, and only then the
active-assignment lookup.  The `timestamp` argument is accepted and,
as in the source, never used.  Returns the service result and the
store after the call. -/
noncomputable def updateBusLocation (assignments : List Assignment)
    (store : List BusRecord) (driverId busId : String)
    (lng lat speed heading : ℝ) (timestamp : ℝ) (now : ℤ) :
    ServiceResult × List BusRecord :=
  if lng < -180 ∨ 180 < lng ∨ lat < -90 ∨ 90 < lat then
    (.err "Invalid coordinates", store)
  else if speed < 0 ∨ 200 < speed then
    (.err "Invalid speed value", store)
  else if heading < 0 ∨ 360 < heading then
    (.err "Invalid heading value", store)
  else
    match findActiveAssignment assignments driverId busId now with
    | none => (.err "No active assignment found for this bus", store)
    | some assignment =>
        let doc := moveBusData busId assignment.routeId driverId lng lat speed
          heading now (store.find? fun b => b.busId == busId)
        (.ok doc, upsertBus store busId doc)

/-! ## The `driver:move` socket handler (`sockets/index.ts`). -/

/-- What the handler does for one `driver:move` event: silent drop,
`driver:move:success`, or `driver:move:error{error}`. -/
inductive MoveOutcome where
  | dropped
  | success (busId : String)
  | error (e : String)

/-- The `driver:move` handler: the throttle check (which mutates the
throttle entry) runs first; only accepted samples reach
`busService.updateBusLocation`.  Returns the outcome, the driver's
throttle entry after the event, and the store after the event. -/
noncomputable def driverMoveHandler (tstate : Option ThrottleEntry)
    (assignments : List Assignment) (store : List BusRecord)
    (driverId busId : String) (lng lat speed heading ts : ℝ) (now : ℤ) :
    MoveOutcome × Option ThrottleEntry × List BusRecord :=
  let r := shouldUpdate tstate lng lat ts
  if r.1 = false then (.dropped, r.2, store)
  else
    let u := updateBusLocation assignments store driverId busId lng lat speed
      heading ts now
    match u.1 with
    | .ok _ => (.success busId, r.2, u.2)
    | .err e => (.error e, r.2, u.2)

/-! ## Staleness worker (`workers/staleMonitor.ts`). -/

/-- `staleThreshold = now − 60 * 1000` (60 seconds, in ms). -/
def staleThreshold (now : ℤ) : ℤ := now - 60 * 1000

/-- The worker's query filter: `online: true, lastUpdateAt: {$lt: staleThreshold}`. -/
def isStaleQuery (now : ℤ) (b : BusRecord) : Bool :=
  b.online && decide (b.lastUpdateAt < staleThreshold now)

/-- The per-bus update the worker performs (the spec's `markStale`):
`{online: false, lastOnlineAt: bus.lastUpdateAt, status: 'inactive'}`. -/
def markStale (bus : BusRecord) (staleAt : ℤ) : BusRecord :=
  { bus with online := false, lastOnlineAt := staleAt, status := "inactive" }

/-- The `bus:status` payload the worker broadcasts for a demoted bus. -/
structure StalePayload where
  busId : String
  routeId : String
  online : Bool
  lastOnlineAt : ℤ
  lastUpdateAt : ℤ
  status : String
  reason : String

/-- The payload built from the updated (`new: true`) document. -/
def stalePayload (updatedBus : BusRecord) : StalePayload :=
  { busId := updatedBus.busId, routeId := updatedBus.routeId, online := false,
    lastOnlineAt := updatedBus.lastOnlineAt, lastUpdateAt := updatedBus.lastUpdateAt,
    status := "inactive", reason := "stale_timeout" }

/-- `Bus.findOneAndUpdate({_id: bus._id}, ...)`: rewrite the document
with this (unique) `busId`. -/
def updateBusById (store : List BusRecord) (id : String)
    (f : BusRecord → BusRecord) : List BusRecord :=
  store.map fun b => if b.busId == id then f b else b

/-- `StaleMonitorWorker.checkStaleBuses` on one tick: query the stale
buses, update each in the store, and emit one `bus:status` payload per
stale bus.  Returns the store after the tick and the emitted payloads. -/
def checkStaleBuses (now : ℤ) (store : List BusRecord) :
    List BusRecord × List StalePayload :=
  let staleBuses := store.filter (isStaleQuery now)
  (staleBuses.foldl
      (fun s bus => updateBusById s bus.busId (fun b => markStale b bus.lastUpdateAt))
      store,
    staleBuses.map fun bus => stalePayload (markStale bus bus.lastUpdateAt))

/-! ## The `lastSeen` descriptor and the nearby-buses endpoint
(`controllers/busController.ts`). -/

/-- The `lastSeen` descriptor attached to buses returned by the
controller. -/
structure LastSeen where
  timestamp : Option ℤ
  minutesAgo : Option ℤ
  status : String

/-- The controller's last-seen computation.  `lastUpdateAt || lastOnlineAt`
on two `Date` values: a `Date` object is always truthy, so the first
present one wins (this is not a maximum).  `lastSeenMinutes ? ... :
'unknown'`: the number `0` is falsy in JavaScript, so a bus whose
rounded age is zero minutes is reported `unknown`. -/
def lastSeenInfo (lastUpdateAt lastOnlineAt : Option ℤ) (now : ℤ) : LastSeen :=
  let lastSeen := match lastUpdateAt with
    | some t => some t
    | none => lastOnlineAt
  let lastSeenMinutes : Option ℤ :=
    lastSeen.map fun t => round (((now - t : ℤ) : ℚ) / (1000 * 60))
  { timestamp := lastSeen,
    minutesAgo := lastSeenMinutes,
    status := match lastSeenMinutes with
      | none => "unknown"
      | some m =>
          if m = 0 then "unknown"
          else if m < 5 then "very_recent"
          else if m < 30 then "recent"
          else if m < 120 then "moderate"
          else "old" }

/-- A bus document as selected by `getNearbyBuses` (fields the code
reads; the timestamps are optional because the code guards for their
absence). -/
structure NearBus where
  busId : String
  routeId : String
  online : Bool
  lng : ℝ
  lat : ℝ
  lastUpdateAt : Option ℤ
  lastOnlineAt : Option ℤ

/-- An entry of the endpoint's response: the bus enriched with
`distance` (rounded metres) and `lastSeen`. -/
structure NearBusOut where
  bus : NearBus
  distance : ℤ
  lastSeen : LastSeen

/-- The post-processing `getNearbyBuses` applies to the documents the
`$near` query returned: enrich each with rounded Haversine distance
from the query point and a `lastSeen` descriptor, then
`sort((a, b) => a.distance - b.distance)` — a stable ascending sort by
`distance`, modelled by `mergeSort`. -/
noncomputable def processNearbyBuses (nearbyBuses : List NearBus)
    (longitude latitude : ℝ) (now : ℤ) : List NearBusOut :=
  let busesWithDetails := nearbyBuses.map fun bus =>
    ({ bus := bus,
       distance := round (calculateDistance latitude longitude bus.lat bus.lng),
       lastSeen := lastSeenInfo bus.lastUpdateAt bus.lastOnlineAt now } : NearBusOut)
  busesWithDetails.mergeSort fun a b => decide (a.distance ≤ b.distance)

/-! ## ETA worker (`workers/etaWorker.ts`). -/

/-- A stop of a route (`stop.location.coordinates = [lng, lat]`). -/
structure RouteStop where
  stopId : String
  name : String
  lng : ℝ
  lat : ℝ

/-- A route as populated for the worker. -/
structure EtaRoute where
  routeId : String
  stops : List RouteStop

/-- An online bus as selected by the worker; `speed` is optional
because the code computes `bus.speed || 0`. -/
structure EtaBus where
  busId : String
  lng : ℝ
  lat : ℝ
  speed : Option ℝ

/-- The worker's closest-stop loop: running index, accumulator
`(index, stop, minDistance)` with `none` standing for the initial
`minDistance = Infinity` / `closestStop = null`. -/
noncomputable def findClosestAux (busLng busLat : ℝ) :
    ℕ → Option (ℕ × RouteStop × ℝ) → List RouteStop → Option (ℕ × RouteStop × ℝ)
  | _, acc, [] => acc
  | i, acc, stop :: rest =>
      let d := calculateDistance busLat busLng stop.lat stop.lng
      let acc2 := match acc with
        | none => some (i, stop, d)
        | some (j, s, m) => if d < m then some (i, stop, d) else some (j, s, m)
      findClosestAux busLng busLat (i + 1) acc2 rest

/-- The whole loop, from index 0 and `minDistance = Infinity`. -/
noncomputable def findClosestStop (busLng busLat : ℝ) (stops : List RouteStop) :
    Option (ℕ × RouteStop × ℝ) :=
  findClosestAux busLng busLat 0 none stops

/-- `ETAWorker.getSmoothedSpeed`: exponential smoothing with
`smoothingFactor = 0.3`.  `smoothedSpeeds.get(busId) || currentSpeed`:
a stored value of `0` is falsy and falls back to `currentSpeed`.
Returns `(returned value, value stored back in the map)`: the map
stores the unclamped `newSmoothed`, the caller receives
`max 1 newSmoothed`. -/
noncomputable def getSmoothedSpeed (prevSmoothed : Option ℝ)
    (currentSpeed : ℝ) : ℝ × ℝ :=
  let currentSmoothed := match prevSmoothed with
    | none => currentSpeed
    | some v => if v = 0 then currentSpeed else v
  let newSmoothed := 0.3 * currentSpeed + (1 - 0.3) * currentSmoothed
  (max 1 newSmoothed, newSmoothed)

/-- The `eta:update` event payload (`ETAUpdate` in the source).
`routeProgress` is `Option`-valued: `none` models the JavaScript `NaN`
produced when the route has exactly one stop (`0 / 0`). -/
structure EtaUpdate where
  busId : String
  routeId : String
  stopId : String
  name : String
  distance : ℤ
  eta : ℤ
  routeProgress : Option ℤ
  estimatedArrival : ℤ
  timestamp : ℤ

/-- `ETAWorker.calculateBusETA` for one bus: `none` models the source's
`null` (no stops).  `prevSmoothed` is this bus's entry in the worker's
`smoothedSpeeds` map. -/
noncomputable def calculateBusETA (bus : EtaBus) (route : EtaRoute)
    (prevSmoothed : Option ℝ) (now : ℤ) : Option EtaUpdate :=
  if route.stops.length = 0 then none
  else
    match findClosestStop bus.lng bus.lat route.stops with
    | none => none
    | some (i, stop, minDist) =>
        let routeProgress : Option ℤ :=
          if route.stops.length = 1 then none
          else some (round (((i : ℝ) / ((route.stops.length : ℝ) - 1)) * 100))
        let smoothedSpeed := (getSmoothedSpeed prevSmoothed (bus.speed.getD 0)).1
        let etaMinutes := round (minDist / 1000 / (smoothedSpeed / 60))
        some { busId := bus.busId, routeId := route.routeId,
               stopId := stop.stopId, name := stop.name,
               distance := round minDist, eta := max 1 etaMinutes,
               routeProgress := routeProgress,
               estimatedArrival := now + etaMinutes * 60 * 1000,
               timestamp := now }

/-! ## Concrete fixtures used by witnesses and counterexamples. -/

/-- An online bus document at the origin with id `BUS001`. -/
def nearBusA : NearBus :=
  { busId := "BUS001", routeId := "RT1", online := true, lng := 0, lat := 0,
    lastUpdateAt := some 0, lastOnlineAt := some 0 }

/-- An online bus document at the origin with id `BUS002`. -/
def nearBusB : NearBus :=
  { busId := "BUS002", routeId := "RT1", online := true, lng := 0, lat := 0,
    lastUpdateAt := some 0, lastOnlineAt := some 0 }

/-- A bus at the origin moving at 60 km/h. -/
def etaBus0 : EtaBus := { busId := "BUS001", lng := 0, lat := 0, speed := some 60 }

/-- A bus at (2, 2) moving at 10 km/h. -/
def etaBus2 : EtaBus := { busId := "BUS002", lng := 2, lat := 2, speed := some 10 }

/-- A route with a single stop at the origin. -/
def etaRoute1 : EtaRoute :=
  { routeId := "RT1", stops := [{ stopId := "S1", name := "Stop 1", lng := 0, lat := 0 }] }

/-- A route with a single stop at (1, 1). -/
def etaRoute2 : EtaRoute :=
  { routeId := "RT2", stops := [{ stopId := "S9", name := "Only stop", lng := 1, lat := 1 }] }

/-- A route with two stops. -/
def etaRoute3 : EtaRoute :=
  { routeId := "RT3",
    stops := [{ stopId := "S1", name := "Stop A", lng := 0, lat := 0 },
              { stopId := "S2", name := "Stop B", lng := 1, lat := 1 }] }

end RouteMaster

namespace RouteMaster

lemma calculateDistance_self (lat lng : ℝ) : calculateDistance lat lng lat lng = 0 := by
  unfold calculateDistance atan2
  simp [Real.sqrt_zero, Real.arctan_zero]

lemma shouldUpdate_true_iff (prev : Option ThrottleEntry) (lng lat ts : ℝ) :
    (shouldUpdate prev lng lat ts).1 = true ↔
      prev = none ∨ ∃ e, prev = some e ∧ 2000 ≤ ts - e.timestamp ∧
        20 ≤ calculateDistance e.lat e.lng lat lng := by
  cases prev with
  | none => simp [shouldUpdate]
  | some e =>
      simp only [shouldUpdate, MIN_TIME_INTERVAL, MIN_DISTANCE]
      by_cases h1 : ts - e.timestamp < 2000
      · simp [h1, not_le.mpr h1]
      · by_cases h2 : calculateDistance e.lat e.lng lat lng < 20
        · simp [h1, h2, not_le.mpr h2]
        · simp [h1, h2, not_lt.mp h1, not_lt.mp h2]

lemma shouldUpdate_snd_of_true (prev : Option ThrottleEntry) (lng lat ts : ℝ)
    (h : (shouldUpdate prev lng lat ts).1 = true) :
    (shouldUpdate prev lng lat ts).2 = some ⟨ts, lng, lat⟩ := by
  cases prev with
  | none => simp [shouldUpdate]
  | some e =>
      simp only [shouldUpdate] at h ⊢
      by_cases h1 : ts - e.timestamp < MIN_TIME_INTERVAL
      · simp [h1] at h
      · by_cases h2 : calculateDistance e.lat e.lng lat lng < MIN_DISTANCE
        · simp [h1, h2] at h
        · simp [h1, h2]

lemma runThrottle_chain_aux (l : List Sample) :
    ∀ e : ThrottleEntry,
      List.Chain' acceptedStep (entrySample e :: runThrottle (some e) l) := by
  induction l with
  | nil => intro e; exact List.chain'_singleton _
  | cons s rest ih =>
      intro e
      by_cases h1 : s.ts - e.timestamp < MIN_TIME_INTERVAL
      · have : runThrottle (some e) (s :: rest) = runThrottle (some e) rest := by
          simp [runThrottle, shouldUpdate, h1]
        rw [this]; exact ih e
      · by_cases h2 : calculateDistance e.lat e.lng s.lat s.lng < MIN_DISTANCE
        · have : runThrottle (some e) (s :: rest) = runThrottle (some e) rest := by
            simp [runThrottle, shouldUpdate, h1, h2]
          rw [this]; exact ih e
        · have hrun : runThrottle (some e) (s :: rest) =
              s :: runThrottle (some ⟨s.ts, s.lng, s.lat⟩) rest := by
            simp [runThrottle, shouldUpdate, h1, h2]
          rw [hrun]
          refine List.Chain'.cons ?_ ?_
          · exact ⟨not_lt.mp h1, not_lt.mp h2⟩
          · have := ih ⟨s.ts, s.lng, s.lat⟩
            simpa [entrySample] using this

lemma runThrottle_chain (l : List Sample) :
    List.Chain' acceptedStep (runThrottle none l) := by
  cases l with
  | nil => simp [runThrottle]
  | cons s rest =>
      have hrun : runThrottle none (s :: rest) =
          s :: runThrottle (some ⟨s.ts, s.lng, s.lat⟩) rest := by
        simp [runThrottle, shouldUpdate]
      rw [hrun]
      have := runThrottle_chain_aux rest ⟨s.ts, s.lng, s.lat⟩
      simpa [entrySample] using this

/-- C1: the throttle accepts a sample iff there is no stored previous
accepted sample, or both the timestamp gap is at least 2000 ms and the
Haversine distance from the previous accepted coordinate is at least
20 m; consequently over any driver session (no eviction) the accepted
samples have strictly increasing timestamps and consecutive accepted
positions at Haversine distance at least 20 m. -/
theorem C1_throttle_contract :
    (∀ (prev : Option ThrottleEntry) (lng lat ts : ℝ),
      (shouldUpdate prev lng lat ts).1 = true ↔
        prev = none ∨ ∃ e, prev = some e ∧ 2000 ≤ ts - e.timestamp ∧
          20 ≤ calculateDistance e.lat e.lng lat lng) ∧
    (∀ l : List Sample, List.Chain' acceptedStep (runThrottle none l)) ∧
    (∀ l : List Sample,
      List.Chain' (fun a b : Sample => a.ts < b.ts) (runThrottle none l)) := by
  refine ⟨shouldUpdate_true_iff, runThrottle_chain, fun l => ?_⟩
  refine (runThrottle_chain l).imp ?_
  intro a b hab
  have h2000 : (2000 : ℝ) ≤ b.ts - a.ts := hab.1
  linarith

/-- C7: `markStale` is idempotent — applying it twice with the same
`staleAt` yields the same Bus snapshot as applying it once. -/
theorem C7_markStale_idempotent : ∀ (bus : BusRecord) (staleAt : ℤ),
    markStale (markStale bus staleAt) staleAt = markStale bus staleAt := by
  intro bus staleAt
  rfl

lemma foldl_updateBusById (g : BusRecord → BusRecord → BusRecord) :
    ∀ (todo store : List BusRecord),
      todo.foldl (fun s t => updateBusById s t.busId (g t)) store =
        store.map fun b =>
          todo.foldl (fun x t => if x.busId == t.busId then g t x else x) b := by
  intro todo
  induction todo with
  | nil => intro store; simp
  | cons t ts ih =>
      intro store
      rw [List.foldl_cons, ih (updateBusById store t.busId (g t)),
        updateBusById, List.map_map]
      refine List.map_congr_left ?_
      intro b _
      simp only [Function.comp]
      rw [List.foldl_cons]

lemma foldl_match_free (g : BusRecord → BusRecord → BusRecord) :
    ∀ (todo : List BusRecord) (x : BusRecord),
      (∀ t ∈ todo, x.busId ≠ t.busId) →
      todo.foldl (fun x t => if x.busId == t.busId then g t x else x) x = x := by
  intro todo
  induction todo with
  | nil => intro x _; rfl
  | cons t ts ih =>
      intro x hx
      rw [List.foldl_cons]
      have hne : (x.busId == t.busId) = false := by
        simp [hx t (List.mem_cons_self t ts)]
      rw [if_neg (by simp [hne])]
      exact ih x fun u hu => hx u (List.mem_cons_of_mem t hu)

lemma foldl_single_match (g : BusRecord → BusRecord → BusRecord)
    (hg : ∀ t x, (g t x).busId = x.busId) :
    ∀ (todo : List BusRecord) (b : BusRecord),
      todo.Pairwise (fun a c => a.busId ≠ c.busId) →
      (∀ t ∈ todo, t.busId = b.busId → t = b) →
      b ∈ todo →
      todo.foldl (fun x t => if x.busId == t.busId then g t x else x) b = g b b := by
  intro todo
  induction todo with
  | nil => intro b _ _ hmem; exact absurd hmem (List.not_mem_nil b)
  | cons t ts ih =>
      intro b hpair huniq hmem
      by_cases hid : t.busId = b.busId
      · have hb : t = b := huniq t (List.mem_cons_self t ts) hid
        subst hb
        rw [List.foldl_cons, if_pos (by simp)]
        refine foldl_match_free g ts (g t t) ?_
        intro u hu
        rw [hg t t]
        exact (List.pairwise_cons.mp hpair).1 u hu
      · have hmem2 : b ∈ ts := by
          rcases List.mem_cons.mp hmem with h | h
          · exact absurd (congrArg BusRecord.busId h.symm) hid
          · exact h
        rw [List.foldl_cons,
          if_neg (by simp only [beq_iff_eq]; exact fun h => hid h.symm)]
        exact ih b (List.pairwise_cons.mp hpair).2
          (fun u hu hid2 => huniq u (List.mem_cons_of_mem t hu) hid2) hmem2

lemma busId_injective (store : List BusRecord)
    (hNodup : (store.map fun b => b.busId).Nodup) :
    ∀ a ∈ store, ∀ c ∈ store, a.busId = c.busId → a = c := by
  have hpair : store.Pairwise fun a c => a.busId ≠ c.busId :=
    List.pairwise_map.mp hNodup
  intro a ha c hc heq
  by_contra hne
  exact hpair.forall (fun x y h => (h ∘ Eq.symm : y.busId ≠ x.busId)) ha hc hne heq

lemma checkStaleBuses_store_eq (now : ℤ) (store : List BusRecord)
    (hNodup : (store.map fun b => b.busId).Nodup) :
    (checkStaleBuses now store).1 =
      store.map fun b =>
        if isStaleQuery now b then markStale b b.lastUpdateAt else b := by
  have hinj := busId_injective store hNodup
  have hpair : store.Pairwise fun a c => a.busId ≠ c.busId :=
    List.pairwise_map.mp hNodup
  have hg : ∀ (t x : BusRecord), (markStale x t.lastUpdateAt).busId = x.busId :=
    fun t x => rfl
  show (store.filter (isStaleQuery now)).foldl _ store = _
  rw [foldl_updateBusById (fun t x => markStale x t.lastUpdateAt)
    (store.filter (isStaleQuery now)) store]
  refine List.map_congr_left ?_
  intro b hb
  by_cases hstale : isStaleQuery now b = true
  · rw [if_pos hstale]
    refine foldl_single_match _ hg _ b (hpair.filter _) ?_ ?_
    · intro t ht hid
      exact hinj t (List.mem_filter.mp ht).1 b hb hid
    · exact List.mem_filter.mpr ⟨hb, hstale⟩
  · rw [if_neg hstale]
    refine foldl_match_free _ _ b ?_
    intro t ht heq
    have ht2 := List.mem_filter.mp ht
    have hteq : t = b := hinj t ht2.1 b hb heq.symm
    exact hstale (hteq ▸ ht2.2)

/-- C3: on a staleness tick with clock `now`, every bus that is online
and whose `lastUpdateAt` is strictly before `now − 60 s` is demoted —
`online := false`, `status := 'inactive'`, `lastOnlineAt` set to that
bus's own `lastUpdateAt` — and a `bus:status` payload with reason
`stale_timeout` is emitted for it; every other bus is unchanged. -/
theorem C3_staleness_tick (now : ℤ) (store : List BusRecord)
    (hNodup : (store.map fun b => b.busId).Nodup) :
    (checkStaleBuses now store).1 =
      (store.map fun b =>
        if b.online = true ∧ b.lastUpdateAt < now - 60 * 1000 then
          markStale b b.lastUpdateAt
        else b) ∧
    (∀ p ∈ (checkStaleBuses now store).2,
      p.online = false ∧ p.status = "inactive" ∧ p.reason = "stale_timeout") ∧
    (∀ b ∈ store, b.online = true → b.lastUpdateAt < now - 60 * 1000 →
      ∃ p ∈ (checkStaleBuses now store).2,
        p.busId = b.busId ∧ p.routeId = b.routeId ∧
        p.lastOnlineAt = b.lastUpdateAt ∧ p.lastUpdateAt = b.lastUpdateAt) := by
  have hcond : ∀ b : BusRecord,
      (isStaleQuery now b = true) ↔
        (b.online = true ∧ b.lastUpdateAt < now - 60 * 1000) := by
    intro b
    simp [isStaleQuery, staleThreshold]
  refine ⟨?_, ?_, ?_⟩
  · rw [checkStaleBuses_store_eq now store hNodup]
    refine List.map_congr_left ?_
    intro b _
    by_cases h : isStaleQuery now b = true
    · rw [if_pos h, if_pos ((hcond b).mp h)]
    · rw [if_neg h, if_neg fun hc => h ((hcond b).mpr hc)]
  · intro p hp
    have : p ∈ (store.filter (isStaleQuery now)).map
        fun bus => stalePayload (markStale bus bus.lastUpdateAt) := hp
    rcases List.mem_map.mp this with ⟨bus, _, hpe⟩
    refine ⟨?_, ?_, ?_⟩ <;> rw [← hpe] <;> rfl
  · intro b hb honline hlt
    refine ⟨stalePayload (markStale b b.lastUpdateAt), ?_, rfl, rfl, rfl, rfl⟩
    show _ ∈ (store.filter (isStaleQuery now)).map
      fun bus => stalePayload (markStale bus bus.lastUpdateAt)
    exact List.mem_map.mpr ⟨b,
      List.mem_filter.mpr ⟨hb, (hcond b).mpr ⟨honline, hlt⟩⟩, rfl⟩

/-- C3 witness: a two-bus store — one stale online bus, one fresh online
bus — instantiating `C3_staleness_tick` at `now = 200000`. -/
theorem C3_staleness_tick_witness :
    (([{ busId := "BUS001", routeId := "RT1", driverId := "D1", online := true,
         lng := 77, lat := 27, speed := 10, heading := 90,
         lastUpdateAt := 100000, lastOnlineAt := 100000,
         status := "moving" },
       { busId := "BUS002", routeId := "RT1", driverId := "D2", online := true,
         lng := 77, lat := 27, speed := 10, heading := 90,
         lastUpdateAt := 195000, lastOnlineAt := 195000,
         status := "moving" }] : List BusRecord).map (fun b => b.busId)).Nodup ∧
    ((checkStaleBuses 200000
      [{ busId := "BUS001", routeId := "RT1", driverId := "D1", online := true,
         lng := 77, lat := 27, speed := 10, heading := 90,
         lastUpdateAt := 100000, lastOnlineAt := 100000,
         status := "moving" },
       { busId := "BUS002", routeId := "RT1", driverId := "D2", online := true,
         lng := 77, lat := 27, speed := 10, heading := 90,
         lastUpdateAt := 195000, lastOnlineAt := 195000,
         status := "moving" }]).1 =
      ([{ busId := "BUS001", routeId := "RT1", driverId := "D1", online := true,
          lng := 77, lat := 27, speed := 10, heading := 90,
          lastUpdateAt := 100000, lastOnlineAt := 100000,
          status := "moving" },
        { busId := "BUS002", routeId := "RT1", driverId := "D2", online := true,
          lng := 77, lat := 27, speed := 10, heading := 90,
          lastUpdateAt := 195000, lastOnlineAt := 195000,
          status := "moving" }] : List BusRecord).map fun b =>
        if b.online = true ∧ b.lastUpdateAt < 200000 - 60 * 1000 then
          markStale b b.lastUpdateAt
        else b) := by
  refine ⟨by simp, (C3_staleness_tick 200000 _ (by simp)).1⟩

/-- C5 counterexample: the `lastSeen` descriptor is not built from
`max(lastUpdateAt, lastOnlineAt)` — with `lastUpdateAt = 0` and
`lastOnlineAt = 60000000` the code reports timestamp `0`, because
`lastUpdateAt || lastOnlineAt` takes the first present `Date`; and a bus
whose rounded age is `0` minutes is reported `unknown` although its
timestamp is available, because the number `0` is falsy. -/
theorem C5_lastSeen_counterexample :
    (lastSeenInfo (some 0) (some 60000000) 120000000).timestamp ≠
      some (max 0 60000000) ∧
    (lastSeenInfo (some 120000000) none 120000000).status = "unknown" ∧
    (lastSeenInfo (some 120000000) none 120000000).timestamp = some 120000000 := by
  refine ⟨?_, ?_, ?_⟩
  · simp [lastSeenInfo]
  · show (if (round ((((120000000 : ℤ) - 120000000 : ℤ) : ℚ) / (1000 * 60)) : ℤ) = 0
      then "unknown" else _) = "unknown"
    norm_num
  · rfl

/-- C5 (amended): the `lastSeen` descriptor carries
`timestamp = lastUpdateAt` when `lastUpdateAt` is present and
`timestamp = lastOnlineAt` otherwise (not the maximum of the two);
`minutesAgo` is the rounded age of that timestamp in minutes; and the
status is `unknown` when no timestamp is available or when `minutesAgo`
is `0`, else `very_recent` when `minutesAgo < 5`, `recent` when
`5 ≤ minutesAgo < 30`, `moderate` when `30 ≤ minutesAgo < 120`, and
`old` when `minutesAgo ≥ 120`. -/
theorem C5_lastSeen_amended :
    ∀ (lastUpdateAt lastOnlineAt : Option ℤ) (now : ℤ),
      (∀ t, lastUpdateAt = some t →
        (lastSeenInfo lastUpdateAt lastOnlineAt now).timestamp = some t) ∧
      (lastUpdateAt = none →
        (lastSeenInfo lastUpdateAt lastOnlineAt now).timestamp = lastOnlineAt) ∧
      ((lastSeenInfo lastUpdateAt lastOnlineAt now).minutesAgo =
        (lastSeenInfo lastUpdateAt lastOnlineAt now).timestamp.map fun t =>
          round (((now - t : ℤ) : ℚ) / (1000 * 60))) ∧
      ((lastSeenInfo lastUpdateAt lastOnlineAt now).timestamp = none →
        (lastSeenInfo lastUpdateAt lastOnlineAt now).status = "unknown") ∧
      (∀ m, (lastSeenInfo lastUpdateAt lastOnlineAt now).minutesAgo = some m →
        (lastSeenInfo lastUpdateAt lastOnlineAt now).status =
          if m = 0 then "unknown"
          else if m < 5 then "very_recent"
          else if m < 30 then "recent"
          else if m < 120 then "moderate"
          else "old") := by
  intro lastUpdateAt lastOnlineAt now
  cases lastUpdateAt with
  | some t =>
      refine ⟨fun t2 ht2 => ?_, by simp, rfl, by simp [lastSeenInfo], ?_⟩
      · cases ht2; rfl
      · intro m hm
        have : m = round (((now - t : ℤ) : ℚ) / (1000 * 60)) := by
          simpa [lastSeenInfo] using hm.symm
        subst this
        rfl
  | none =>
      cases lastOnlineAt with
      | some t =>
          refine ⟨by simp, fun _ => rfl, rfl, by simp [lastSeenInfo], ?_⟩
          intro m hm
          have : m = round (((now - t : ℤ) : ℚ) / (1000 * 60)) := by
            simpa [lastSeenInfo] using hm.symm
          subst this
          rfl
      | none =>
          refine ⟨by simp, fun _ => rfl, rfl, fun _ => rfl, ?_⟩
          intro m hm
          simp [lastSeenInfo] at hm

lemma updateBusLocation_coord_err (assignments : List Assignment)
    (store : List BusRecord) (driverId busId : String)
    (lng lat speed heading ts : ℝ) (now : ℤ)
    (h1 : lng < -180 ∨ 180 < lng ∨ lat < -90 ∨ 90 < lat) :
    updateBusLocation assignments store driverId busId lng lat speed heading ts now =
      (.err "Invalid coordinates", store) := by
  rw [updateBusLocation, if_pos h1]

lemma updateBusLocation_speed_err (assignments : List Assignment)
    (store : List BusRecord) (driverId busId : String)
    (lng lat speed heading ts : ℝ) (now : ℤ)
    (h1 : ¬(lng < -180 ∨ 180 < lng ∨ lat < -90 ∨ 90 < lat))
    (h2 : speed < 0 ∨ 200 < speed) :
    updateBusLocation assignments store driverId busId lng lat speed heading ts now =
      (.err "Invalid speed value", store) := by
  rw [updateBusLocation, if_neg h1, if_pos h2]

lemma updateBusLocation_heading_err (assignments : List Assignment)
    (store : List BusRecord) (driverId busId : String)
    (lng lat speed heading ts : ℝ) (now : ℤ)
    (h1 : ¬(lng < -180 ∨ 180 < lng ∨ lat < -90 ∨ 90 < lat))
    (h2 : ¬(speed < 0 ∨ 200 < speed))
    (h3 : heading < 0 ∨ 360 < heading) :
    updateBusLocation assignments store driverId busId lng lat speed heading ts now =
      (.err "Invalid heading value", store) := by
  rw [updateBusLocation, if_neg h1, if_neg h2, if_pos h3]

lemma updateBusLocation_no_assignment (assignments : List Assignment)
    (store : List BusRecord) (driverId busId : String)
    (lng lat speed heading ts : ℝ) (now : ℤ)
    (h1 : ¬(lng < -180 ∨ 180 < lng ∨ lat < -90 ∨ 90 < lat))
    (h2 : ¬(speed < 0 ∨ 200 < speed))
    (h3 : ¬(heading < 0 ∨ 360 < heading))
    (h4 : findActiveAssignment assignments driverId busId now = none) :
    updateBusLocation assignments store driverId busId lng lat speed heading ts now =
      (.err "No active assignment found for this bus", store) := by
  rw [updateBusLocation, if_neg h1, if_neg h2, if_neg h3, h4]

/-- C6 counterexample: a `driver:move` with an out-of-range longitude
from a driver with no active assignment is answered with the range
error, not `NoActiveAssignment` — the service validates ranges before
it resolves the assignment. -/
theorem C6_error_precedence_counterexample :
    (updateBusLocation [] [] "D1" "BUS001" 200 0 0 0 0 0).1 =
      .err "Invalid coordinates" ∧
    (updateBusLocation [] [] "D1" "BUS001" 200 0 0 0 0 0).2 = [] ∧
    "Invalid coordinates" ≠ "No active assignment found for this bus" := by
  have h := updateBusLocation_coord_err [] [] "D1" "BUS001" 200 0 0 0 0 0
    (by norm_num)
  refine ⟨?_, ?_, by decide⟩
  · rw [h]
  · rw [h]

/-- C6 (amended): `updateBusLocation` validates coordinate, speed and
heading ranges first and resolves the active assignment only
afterwards; hence an out-of-range sample is answered with the
corresponding range error even when the driver also has no active
assignment, `NoActiveAssignment` is emitted only for in-range samples,
and in every failure case the Bus store is left unchanged. -/
theorem C6_validation_before_assignment :
    ∀ (assignments : List Assignment) (store : List BusRecord)
      (driverId busId : String) (lng lat speed heading ts : ℝ) (now : ℤ),
      ((lng < -180 ∨ 180 < lng ∨ lat < -90 ∨ 90 < lat) →
        updateBusLocation assignments store driverId busId lng lat speed heading ts now =
          (.err "Invalid coordinates", store)) ∧
      (¬(lng < -180 ∨ 180 < lng ∨ lat < -90 ∨ 90 < lat) →
        (speed < 0 ∨ 200 < speed) →
        updateBusLocation assignments store driverId busId lng lat speed heading ts now =
          (.err "Invalid speed value", store)) ∧
      (¬(lng < -180 ∨ 180 < lng ∨ lat < -90 ∨ 90 < lat) →
        ¬(speed < 0 ∨ 200 < speed) →
        (heading < 0 ∨ 360 < heading) →
        updateBusLocation assignments store driverId busId lng lat speed heading ts now =
          (.err "Invalid heading value", store)) ∧
      (¬(lng < -180 ∨ 180 < lng ∨ lat < -90 ∨ 90 < lat) →
        ¬(speed < 0 ∨ 200 < speed) →
        ¬(heading < 0 ∨ 360 < heading) →
        findActiveAssignment assignments driverId busId now = none →
        updateBusLocation assignments store driverId busId lng lat speed heading ts now =
          (.err "No active assignment found for this bus", store)) := by
  intro assignments store driverId busId lng lat speed heading ts now
  exact ⟨updateBusLocation_coord_err assignments store driverId busId lng lat
      speed heading ts now,
    updateBusLocation_speed_err assignments store driverId busId lng lat
      speed heading ts now,
    updateBusLocation_heading_err assignments store driverId busId lng lat
      speed heading ts now,
    updateBusLocation_no_assignment assignments store driverId busId lng lat
      speed heading ts now⟩

lemma updateBusLocation_ok (assignments : List Assignment)
    (store : List BusRecord) (driverId busId : String)
    (lng lat speed heading ts : ℝ) (now : ℤ) (a : Assignment)
    (h1 : ¬(lng < -180 ∨ 180 < lng ∨ lat < -90 ∨ 90 < lat))
    (h2 : ¬(speed < 0 ∨ 200 < speed))
    (h3 : ¬(heading < 0 ∨ 360 < heading))
    (hfa : findActiveAssignment assignments driverId busId now = some a) :
    updateBusLocation assignments store driverId busId lng lat speed heading ts now =
      (.ok (moveBusData busId a.routeId driverId lng lat speed heading now
          (store.find? fun b => b.busId == busId)),
        upsertBus store busId (moveBusData busId a.routeId driverId lng lat speed
          heading now (store.find? fun b => b.busId == busId))) := by
  rw [updateBusLocation, if_neg h1, if_neg h2, if_neg h3, hfa]

lemma updateBusLocation_err_store (assignments : List Assignment)
    (store : List BusRecord) (driverId busId : String)
    (lng lat speed heading ts : ℝ) (now : ℤ) (e : String)
    (h : (updateBusLocation assignments store driverId busId lng lat speed
      heading ts now).1 = .err e) :
    (updateBusLocation assignments store driverId busId lng lat speed
      heading ts now).2 = store := by
  by_cases h1 : (lng < -180 ∨ 180 < lng ∨ lat < -90 ∨ 90 < lat)
  · rw [updateBusLocation_coord_err _ _ _ _ _ _ _ _ _ _ h1]
  · by_cases h2 : (speed < 0 ∨ 200 < speed)
    · rw [updateBusLocation_speed_err _ _ _ _ _ _ _ _ _ _ h1 h2]
    · by_cases h3 : (heading < 0 ∨ 360 < heading)
      · rw [updateBusLocation_heading_err _ _ _ _ _ _ _ _ _ _ h1 h2 h3]
      · cases hfa : findActiveAssignment assignments driverId busId now with
        | none =>
            rw [updateBusLocation_no_assignment _ _ _ _ _ _ _ _ _ _ h1 h2 h3 hfa]
        | some a =>
            rw [updateBusLocation_ok _ _ _ _ _ _ _ _ _ _ a h1 h2 h3 hfa] at h
            simp at h

lemma mem_upsertBus (store : List BusRecord) (busId : String) (doc : BusRecord) :
    doc ∈ upsertBus store busId doc := by
  induction store with
  | nil => simp [upsertBus]
  | cons b rest ih =>
      rw [upsertBus]
      by_cases hb : (b.busId == busId) = true
      · rw [if_pos hb]; exact List.mem_cons_self _ _
      · rw [if_neg hb]; exact List.mem_cons_of_mem _ ih

lemma moveBusData_fields (busId routeId driverId : String)
    (lng lat speed heading : ℝ) (now : ℤ) (old : Option BusRecord) :
    (moveBusData busId routeId driverId lng lat speed heading now old).lng = lng ∧
    (moveBusData busId routeId driverId lng lat speed heading now old).lat = lat ∧
    (moveBusData busId routeId driverId lng lat speed heading now old).speed = speed ∧
    (moveBusData busId routeId driverId lng lat speed heading now old).heading = heading ∧
    (moveBusData busId routeId driverId lng lat speed heading now old).online = true := by
  cases old <;> simp [moveBusData]

/-- C8 (amended): every accepted `driver:move` sample satisfies
`lng ∈ [−180, 180]`, `lat ∈ [−90, 90]`, `speed ∈ [0, 200]` and
`heading ∈ [0, 360]` — the closed interval: the service rejects only
`heading < 0 || heading > 360`, so `heading = 360` is accepted — and
the stored Bus record carries exactly the accepted values with
`online = true`; out-of-range samples are rejected with an error. -/
theorem C8_accepted_ranges (assignments : List Assignment)
    (store : List BusRecord) (driverId busId : String)
    (lng lat speed heading ts : ℝ) (now : ℤ) (bus : BusRecord)
    (store2 : List BusRecord)
    (h : updateBusLocation assignments store driverId busId lng lat speed
      heading ts now = (.ok bus, store2)) :
    (-180 ≤ lng ∧ lng ≤ 180 ∧ -90 ≤ lat ∧ lat ≤ 90) ∧
    (0 ≤ speed ∧ speed ≤ 200) ∧ (0 ≤ heading ∧ heading ≤ 360) ∧
    bus.lng = lng ∧ bus.lat = lat ∧ bus.speed = speed ∧
    bus.heading = heading ∧ bus.online = true ∧ bus ∈ store2 := by
  by_cases h1 : (lng < -180 ∨ 180 < lng ∨ lat < -90 ∨ 90 < lat)
  · rw [updateBusLocation_coord_err _ _ _ _ _ _ _ _ _ _ h1] at h
    simp at h
  · by_cases h2 : (speed < 0 ∨ 200 < speed)
    · rw [updateBusLocation_speed_err _ _ _ _ _ _ _ _ _ _ h1 h2] at h
      simp at h
    · by_cases h3 : (heading < 0 ∨ 360 < heading)
      · rw [updateBusLocation_heading_err _ _ _ _ _ _ _ _ _ _ h1 h2 h3] at h
        simp at h
      · cases hfa : findActiveAssignment assignments driverId busId now with
        | none =>
            rw [updateBusLocation_no_assignment _ _ _ _ _ _ _ _ _ _ h1 h2 h3 hfa] at h
            simp at h
        | some a =>
            rw [updateBusLocation_ok _ _ _ _ _ _ _ _ _ _ a h1 h2 h3 hfa] at h
            push_neg at h1 h2 h3
            have hbus := congrArg Prod.fst h
            have hstore := congrArg Prod.snd h
            simp only [ServiceResult.ok.injEq] at hbus
            simp only at hstore
            have hf := moveBusData_fields busId a.routeId driverId lng lat speed
              heading now (store.find? fun b => b.busId == busId)
            refine ⟨⟨h1.1, h1.2.1, h1.2.2.1, h1.2.2.2⟩, ⟨h2.1, h2.2⟩,
              ⟨h3.1, h3.2⟩, ?_, ?_, ?_, ?_, ?_, ?_⟩
            · rw [← hbus]; exact hf.1
            · rw [← hbus]; exact hf.2.1
            · rw [← hbus]; exact hf.2.2.1
            · rw [← hbus]; exact hf.2.2.2.1
            · rw [← hbus]; exact hf.2.2.2.2
            · rw [← hbus, ← hstore]; exact mem_upsertBus _ _ _

/-- C8 witness: a fully in-range sample from a driver with an active
assignment is accepted and stored, instantiating `C8_accepted_ranges`. -/
theorem C8_accepted_ranges_witness :
    updateBusLocation
        [{ driverId := "D1", busId := "BUS001", routeId := "RT1", active := true,
           shiftStart := 0, shiftEnd := 100 }] [] "D1" "BUS001" 10 20 50 90 5 50 =
      (.ok { busId := "BUS001", routeId := "RT1", driverId := "D1", online := true,
             lng := 10, lat := 20, speed := 50, heading := 90,
             lastUpdateAt := 50, lastOnlineAt := 50, status := "idle" },
       [{ busId := "BUS001", routeId := "RT1", driverId := "D1", online := true,
          lng := 10, lat := 20, speed := 50, heading := 90,
          lastUpdateAt := 50, lastOnlineAt := 50, status := "idle" }]) ∧
    ((-180 ≤ (10 : ℝ) ∧ (10 : ℝ) ≤ 180 ∧ -90 ≤ (20 : ℝ) ∧ (20 : ℝ) ≤ 90) ∧
      (0 ≤ (50 : ℝ) ∧ (50 : ℝ) ≤ 200) ∧ (0 ≤ (90 : ℝ) ∧ (90 : ℝ) ≤ 360) ∧
      ({ busId := "BUS001", routeId := "RT1", driverId := "D1", online := true,
         lng := 10, lat := 20, speed := 50, heading := 90,
         lastUpdateAt := 50, lastOnlineAt := 50, status := "idle" } : BusRecord).lng = 10 ∧
      ({ busId := "BUS001", routeId := "RT1", driverId := "D1", online := true,
         lng := 10, lat := 20, speed := 50, heading := 90,
         lastUpdateAt := 50, lastOnlineAt := 50, status := "idle" } : BusRecord).lat = 20 ∧
      ({ busId := "BUS001", routeId := "RT1", driverId := "D1", online := true,
         lng := 10, lat := 20, speed := 50, heading := 90,
         lastUpdateAt := 50, lastOnlineAt := 50, status := "idle" } : BusRecord).speed = 50 ∧
      ({ busId := "BUS001", routeId := "RT1", driverId := "D1", online := true,
         lng := 10, lat := 20, speed := 50, heading := 90,
         lastUpdateAt := 50, lastOnlineAt := 50, status := "idle" } : BusRecord).heading = 90 ∧
      ({ busId := "BUS001", routeId := "RT1", driverId := "D1", online := true,
         lng := 10, lat := 20, speed := 50, heading := 90,
         lastUpdateAt := 50, lastOnlineAt := 50, status := "idle" } : BusRecord).online = true ∧
      ({ busId := "BUS001", routeId := "RT1", driverId := "D1", online := true,
         lng := 10, lat := 20, speed := 50, heading := 90,
         lastUpdateAt := 50, lastOnlineAt := 50, status := "idle" } : BusRecord) ∈
        [({ busId := "BUS001", routeId := "RT1", driverId := "D1", online := true,
            lng := 10, lat := 20, speed := 50, heading := 90,
            lastUpdateAt := 50, lastOnlineAt := 50, status := "idle" } : BusRecord)]) := by
  have hfa : findActiveAssignment
      [{ driverId := "D1", busId := "BUS001", routeId := "RT1", active := true,
         shiftStart := 0, shiftEnd := 100 }] "D1" "BUS001" 50 =
      some { driverId := "D1", busId := "BUS001", routeId := "RT1", active := true,
             shiftStart := 0, shiftEnd := 100 } := by
    rfl
  have h := updateBusLocation_ok
    [{ driverId := "D1", busId := "BUS001", routeId := "RT1", active := true,
       shiftStart := 0, shiftEnd := 100 }] [] "D1" "BUS001" 10 20 50 90 5 50
    { driverId := "D1", busId := "BUS001", routeId := "RT1", active := true,
      shiftStart := 0, shiftEnd := 100 }
    (by norm_num) (by norm_num) (by norm_num) hfa
  refine ⟨h, C8_accepted_ranges _ _ _ _ _ _ _ _ _ _ _ _ h⟩

/-- C8 counterexample: a sample with `heading = 360` is accepted and
stored (the service rejects only `heading > 360`), so accepted headings
are not confined to the half-open interval `[0, 360)`. -/
theorem C8_heading_360_counterexample :
    updateBusLocation
        [{ driverId := "D2", busId := "BUS002", routeId := "RT2", active := true,
           shiftStart := 0, shiftEnd := 100 }] [] "D2" "BUS002" 10 20 50 360 5 50 =
      (.ok { busId := "BUS002", routeId := "RT2", driverId := "D2", online := true,
             lng := 10, lat := 20, speed := 50, heading := 360,
             lastUpdateAt := 50, lastOnlineAt := 50, status := "idle" },
       [{ busId := "BUS002", routeId := "RT2", driverId := "D2", online := true,
          lng := 10, lat := 20, speed := 50, heading := 360,
          lastUpdateAt := 50, lastOnlineAt := 50, status := "idle" }]) ∧
    ¬((360 : ℝ) < 360) := by
  have hfa : findActiveAssignment
      [{ driverId := "D2", busId := "BUS002", routeId := "RT2", active := true,
         shiftStart := 0, shiftEnd := 100 }] "D2" "BUS002" 50 =
      some { driverId := "D2", busId := "BUS002", routeId := "RT2", active := true,
             shiftStart := 0, shiftEnd := 100 } := by
    rfl
  refine ⟨?_, by norm_num⟩
  exact updateBusLocation_ok _ _ _ _ _ _ _ _ _ _ _
    (by norm_num) (by norm_num) (by norm_num) hfa

lemma driverMoveHandler_tstate (tstate : Option ThrottleEntry)
    (assignments : List Assignment) (store : List BusRecord)
    (driverId busId : String) (lng lat speed heading ts : ℝ) (now : ℤ) :
    (driverMoveHandler tstate assignments store driverId busId lng lat speed
      heading ts now).2.1 = (shouldUpdate tstate lng lat ts).2 := by
  simp only [driverMoveHandler]
  split
  · rfl
  · split <;> rfl

lemma shouldUpdate_false_of_close (e : ThrottleEntry) (lng2 lat2 ts2 : ℝ)
    (h : ts2 - e.timestamp < 2000 ∨ calculateDistance e.lat e.lng lat2 lng2 < 20) :
    (shouldUpdate (some e) lng2 lat2 ts2).1 = false := by
  by_cases h1 : ts2 - e.timestamp < MIN_TIME_INTERVAL
  · simp [shouldUpdate, h1]
  · have h2 : calculateDistance e.lat e.lng lat2 lng2 < MIN_DISTANCE := by
      rcases h with h | h
      · exact absurd h (by simpa [MIN_TIME_INTERVAL] using h1)
      · simpa [MIN_DISTANCE] using h
    simp [shouldUpdate, h1, h2]

/-- C10: whenever the throttle accepts a `driver:move` sample, the stored
throttle entry is replaced with that sample's timestamp and coordinates
before downstream validation runs; hence when the sample is then
rejected (the handler emits `driver:move:error` and the Bus store is
left unchanged), any following sample within 2000 ms or within 20 m of
the rejected one is silently dropped by the throttle. -/
theorem C10_throttle_state_on_rejection :
    ∀ (tstate : Option ThrottleEntry) (assignments : List Assignment)
      (store : List BusRecord) (driverId busId : String)
      (lng lat speed heading ts : ℝ) (now : ℤ),
      ((shouldUpdate tstate lng lat ts).1 = true →
        (driverMoveHandler tstate assignments store driverId busId lng lat speed
          heading ts now).2.1 = some ⟨ts, lng, lat⟩) ∧
      (∀ e, (driverMoveHandler tstate assignments store driverId busId lng lat
          speed heading ts now).1 = .error e →
        (driverMoveHandler tstate assignments store driverId busId lng lat speed
          heading ts now).2.2 = store) ∧
      (∀ lng2 lat2 ts2 : ℝ, (shouldUpdate tstate lng lat ts).1 = true →
        (ts2 - ts < 2000 ∨ calculateDistance lat lng lat2 lng2 < 20) →
        (shouldUpdate
          (driverMoveHandler tstate assignments store driverId busId lng lat
            speed heading ts now).2.1 lng2 lat2 ts2).1 = false) := by
  intro tstate assignments store driverId busId lng lat speed heading ts now
  refine ⟨?_, ?_, ?_⟩
  · intro hacc
    rw [driverMoveHandler_tstate]
    exact shouldUpdate_snd_of_true tstate lng lat ts hacc
  · intro e herr
    simp only [driverMoveHandler] at herr ⊢
    by_cases hacc : (shouldUpdate tstate lng lat ts).1 = false
    · rw [if_pos hacc] at herr
      exact absurd herr (by simp)
    · rw [if_neg hacc] at herr ⊢
      cases hu : (updateBusLocation assignments store driverId busId lng lat
          speed heading ts now).1 with
      | ok bus => rw [hu] at herr; exact MoveOutcome.noConfusion herr
      | err e2 => exact updateBusLocation_err_store _ _ _ _ _ _ _ _ _ _ e2 hu
  · intro lng2 lat2 ts2 hacc hclose
    rw [driverMoveHandler_tstate, shouldUpdate_snd_of_true tstate lng lat ts hacc]
    exact shouldUpdate_false_of_close ⟨ts, lng, lat⟩ lng2 lat2 ts2 hclose

lemma nearLe_trans (a b c : NearBusOut)
    (hab : decide (a.distance ≤ b.distance) = true)
    (hbc : decide (b.distance ≤ c.distance) = true) :
    decide (a.distance ≤ c.distance) = true := by
  simp only [decide_eq_true_iff] at *
  exact le_trans hab hbc

lemma nearLe_total (a b : NearBusOut) :
    (decide (a.distance ≤ b.distance) || decide (b.distance ≤ a.distance)) = true := by
  simp [le_total]

/-- C2 (amended): the nearby-buses response contains only buses the geo
query returned (all online, at most 50 because of the query's
`limit(50)`), is a permutation of them, and is sorted non-decreasing by
the rounded Haversine `distance` field.  Entries at equal distance keep
the geo query's order — the sort is stable — they are *not* reordered
by `busId`. -/
theorem C2_near_query_amended (dbResult : List NearBus)
    (longitude latitude : ℝ) (now : ℤ)
    (h_online : ∀ b ∈ dbResult, b.online = true)
    (h_len : dbResult.length ≤ 50) :
    (∀ o ∈ processNearbyBuses dbResult longitude latitude now, o.bus.online = true) ∧
    (processNearbyBuses dbResult longitude latitude now).length ≤ 50 ∧
    List.Pairwise (fun a b : NearBusOut => a.distance ≤ b.distance)
      (processNearbyBuses dbResult longitude latitude now) ∧
    ((processNearbyBuses dbResult longitude latitude now).map fun o => o.bus).Perm
      dbResult := by
  have hperm : (processNearbyBuses dbResult longitude latitude now).Perm
      (dbResult.map fun bus =>
        ({ bus := bus,
           distance := round (calculateDistance latitude longitude bus.lat bus.lng),
           lastSeen := lastSeenInfo bus.lastUpdateAt bus.lastOnlineAt now } : NearBusOut)) :=
    List.mergeSort_perm _ _
  refine ⟨?_, ?_, ?_, ?_⟩
  · intro o ho
    have ho2 := hperm.subset ho
    rcases List.mem_map.mp ho2 with ⟨b, hb, hbe⟩
    rw [← hbe]
    exact h_online b hb
  · rw [hperm.length_eq, List.length_map]
    exact h_len
  · have hs := List.sorted_mergeSort nearLe_trans nearLe_total
      (dbResult.map fun bus =>
        ({ bus := bus,
           distance := round (calculateDistance latitude longitude bus.lat bus.lng),
           lastSeen := lastSeenInfo bus.lastUpdateAt bus.lastOnlineAt now } : NearBusOut))
    exact hs.imp fun h => of_decide_eq_true h
  · refine (hperm.map fun o => o.bus).trans ?_
    rw [List.map_map]
    have : ((fun o : NearBusOut => o.bus) ∘ fun bus : NearBus =>
        ({ bus := bus,
           distance := round (calculateDistance latitude longitude bus.lat bus.lng),
           lastSeen := lastSeenInfo bus.lastUpdateAt bus.lastOnlineAt now } : NearBusOut)) =
        id := by
      funext b; rfl
    rw [this, List.map_id]

/-- C2 witness: instantiating `C2_near_query_amended` on the singleton
store `[nearBusA]` queried from the origin at time 0. -/
theorem C2_near_query_witness :
    (∀ b ∈ [nearBusA], b.online = true) ∧ ([nearBusA] : List NearBus).length ≤ 50 ∧
    ((∀ o ∈ processNearbyBuses [nearBusA] 0 0 0, o.bus.online = true) ∧
      (processNearbyBuses [nearBusA] 0 0 0).length ≤ 50 ∧
      List.Pairwise (fun a b : NearBusOut => a.distance ≤ b.distance)
        (processNearbyBuses [nearBusA] 0 0 0) ∧
      ((processNearbyBuses [nearBusA] 0 0 0).map fun o => o.bus).Perm [nearBusA]) := by
  have h_online : ∀ b ∈ [nearBusA], b.online = true := by
    intro b hb
    rw [List.mem_singleton.mp hb]
    rfl
  have h_len : ([nearBusA] : List NearBus).length ≤ 50 := by simp
  exact ⟨h_online, h_len, C2_near_query_amended [nearBusA] 0 0 0 h_online h_len⟩

/-- C2 counterexample: two online buses at the query point itself (equal
distance 0); the response keeps the geo query's order `BUS002, BUS001`,
which is not the lexicographic order of the ids — the stable sort does
not break ties by `busId`. -/
theorem C2_tie_not_lexicographic_counterexample :
    ((processNearbyBuses [nearBusB, nearBusA] 0 0 0).map fun o => o.bus.busId) =
      ["BUS002", "BUS001"] ∧
    (∀ o ∈ processNearbyBuses [nearBusB, nearBusA] 0 0 0, o.distance = 0) ∧
    "BUS001".data < "BUS002".data := by
  have hsorted : processNearbyBuses [nearBusB, nearBusA] 0 0 0 =
      [{ bus := nearBusB,
         distance := round (calculateDistance 0 0 nearBusB.lat nearBusB.lng),
         lastSeen := lastSeenInfo nearBusB.lastUpdateAt nearBusB.lastOnlineAt 0 },
       { bus := nearBusA,
         distance := round (calculateDistance 0 0 nearBusA.lat nearBusA.lng),
         lastSeen := lastSeenInfo nearBusA.lastUpdateAt nearBusA.lastOnlineAt 0 }] := by
    refine List.mergeSort_of_sorted ?_
    refine List.pairwise_cons.mpr ⟨?_, List.pairwise_singleton _ _⟩
    intro o ho
    rw [List.mem_singleton.mp ho]
    simp [nearBusA, nearBusB]
  have hzero : round (calculateDistance (0 : ℝ) 0 0 0) = 0 := by
    rw [calculateDistance_self]
    exact round_zero
  refine ⟨?_, ?_, by decide⟩
  · rw [hsorted]; rfl
  · rw [hsorted]
    intro o ho
    rcases List.mem_cons.mp ho with h | h
    · rw [h]
      show round (calculateDistance 0 0 nearBusB.lat nearBusB.lng) = 0
      exact hzero
    · rw [List.mem_singleton.mp h]
      show round (calculateDistance 0 0 nearBusA.lat nearBusA.lng) = 0
      exact hzero

lemma findClosestAux_some (busLng busLat : ℝ) :
    ∀ (l : List RouteStop) (k i : ℕ) (s : RouteStop) (d : ℝ),
      ∃ i2 s2 d2, findClosestAux busLng busLat k (some (i, s, d)) l =
        some (i2, s2, d2) := by
  intro l
  induction l with
  | nil => intro k i s d; exact ⟨i, s, d, rfl⟩
  | cons stop rest ih =>
      intro k i s d
      rw [findClosestAux]
      by_cases hlt : calculateDistance busLat busLng stop.lat stop.lng < d
      · simpa [hlt] using ih (k + 1) k stop _
      · simpa [hlt] using ih (k + 1) i s d

lemma findClosestStop_isSome (busLng busLat : ℝ) (stops : List RouteStop)
    (h : stops ≠ []) :
    ∃ i s d, findClosestStop busLng busLat stops = some (i, s, d) := by
  cases stops with
  | nil => exact absurd rfl h
  | cons stop rest =>
      rw [findClosestStop, findClosestAux]
      exact findClosestAux_some busLng busLat rest 1 0 stop _

lemma findClosestAux_d_inv (busLng busLat : ℝ) :
    ∀ (l : List RouteStop) (k : ℕ) (acc : Option (ℕ × RouteStop × ℝ)),
      (∀ j s m, acc = some (j, s, m) →
        m = calculateDistance busLat busLng s.lat s.lng) →
      ∀ i s d, findClosestAux busLng busLat k acc l = some (i, s, d) →
        d = calculateDistance busLat busLng s.lat s.lng := by
  intro l
  induction l with
  | nil =>
      intro k acc hacc i s d h
      exact hacc i s d h
  | cons stop rest ih =>
      intro k acc hacc i s d h
      cases acc with
      | none =>
          rw [findClosestAux] at h
          refine ih (k + 1) _ ?_ i s d h
          intro j2 s2 m2 hacc2
          simp only [Option.some.injEq, Prod.mk.injEq] at hacc2
          rw [← hacc2.2.2, ← hacc2.2.1]
      | some t =>
          rcases t with ⟨j0, s0, m0⟩
          rw [findClosestAux] at h
          by_cases hlt : calculateDistance busLat busLng stop.lat stop.lng < m0
          · rw [if_pos hlt] at h
            refine ih (k + 1) _ ?_ i s d h
            intro j2 s2 m2 hacc2
            simp only [Option.some.injEq, Prod.mk.injEq] at hacc2
            rw [← hacc2.2.2, ← hacc2.2.1]
          · rw [if_neg hlt] at h
            refine ih (k + 1) _ ?_ i s d h
            intro j2 s2 m2 hacc2
            simp only [Option.some.injEq, Prod.mk.injEq] at hacc2
            exact hacc2.2.2 ▸ hacc2.2.1 ▸ hacc j0 s0 m0 rfl

lemma findClosestAux_min (busLng busLat : ℝ) :
    ∀ (l : List RouteStop) (k : ℕ) (acc : Option (ℕ × RouteStop × ℝ))
      (i : ℕ) (s : RouteStop) (d : ℝ),
      findClosestAux busLng busLat k acc l = some (i, s, d) →
      (∀ t ∈ l, d ≤ calculateDistance busLat busLng t.lat t.lng) ∧
      (∀ j u m, acc = some (j, u, m) → d ≤ m) := by
  intro l
  induction l with
  | nil =>
      intro k acc i s d h
      refine ⟨by simp, fun j u m hacc => ?_⟩
      rw [hacc] at h
      simp only [findClosestAux, Option.some.injEq, Prod.mk.injEq] at h
      exact le_of_eq h.2.2.symm
  | cons stop rest ih =>
      intro k acc i s d h
      cases acc with
      | none =>
          rw [findClosestAux] at h
          obtain ⟨hrest, hacc2⟩ := ih (k + 1) _ i s d h
          have hstop : d ≤ calculateDistance busLat busLng stop.lat stop.lng :=
            hacc2 k stop _ rfl
          refine ⟨fun t ht => ?_, fun j u m hc => Option.noConfusion hc⟩
          rcases List.mem_cons.mp ht with rfl | ht
          · exact hstop
          · exact hrest t ht
      | some t =>
          rcases t with ⟨j0, u0, m0⟩
          rw [findClosestAux] at h
          by_cases hlt : calculateDistance busLat busLng stop.lat stop.lng < m0
          · rw [if_pos hlt] at h
            obtain ⟨hrest, hacc2⟩ := ih (k + 1) _ i s d h
            have hstop : d ≤ calculateDistance busLat busLng stop.lat stop.lng :=
              hacc2 k stop _ rfl
            refine ⟨fun t ht => ?_, fun j u m hc => ?_⟩
            · rcases List.mem_cons.mp ht with rfl | ht
              · exact hstop
              · exact hrest t ht
            · simp only [Option.some.injEq, Prod.mk.injEq] at hc
              exact le_of_lt (lt_of_le_of_lt hstop (hc.2.2 ▸ hlt))
          · rw [if_neg hlt] at h
            obtain ⟨hrest, hacc2⟩ := ih (k + 1) _ i s d h
            have hm0 : d ≤ m0 := hacc2 j0 u0 m0 rfl
            refine ⟨fun t ht => ?_, fun j u m hc => ?_⟩
            · rcases List.mem_cons.mp ht with rfl | ht
              · exact le_trans hm0 (not_lt.mp hlt)
              · exact hrest t ht
            · simp only [Option.some.injEq, Prod.mk.injEq] at hc
              exact hc.2.2 ▸ hm0

lemma findClosestAux_idx (busLng busLat : ℝ) :
    ∀ (l : List RouteStop) (k : ℕ) (acc : Option (ℕ × RouteStop × ℝ))
      (i : ℕ) (s : RouteStop) (d : ℝ),
      findClosestAux busLng busLat k acc l = some (i, s, d) →
      acc = some (i, s, d) ∨
        ∃ j, j < l.length ∧ i = k + j ∧ l[j]? = some s := by
  intro l
  induction l with
  | nil => intro k acc i s d h; exact Or.inl h
  | cons stop rest ih =>
      intro k acc i s d h
      cases acc with
      | none =>
          rw [findClosestAux] at h
          rcases ih (k + 1) _ i s d h with hacc2 | ⟨j, hj, hi, hget⟩
          · simp only [Option.some.injEq, Prod.mk.injEq] at hacc2
            right
            exact ⟨0, by simp, by omega, by simp [hacc2.2.1]⟩
          · right
            refine ⟨j + 1, by simpa using hj, by omega, by simpa using hget⟩
      | some t =>
          rcases t with ⟨j0, u0, m0⟩
          rw [findClosestAux] at h
          by_cases hlt : calculateDistance busLat busLng stop.lat stop.lng < m0
          · rw [if_pos hlt] at h
            rcases ih (k + 1) _ i s d h with hacc2 | ⟨j, hj, hi, hget⟩
            · simp only [Option.some.injEq, Prod.mk.injEq] at hacc2
              right
              exact ⟨0, by simp, by omega, by simp [hacc2.2.1]⟩
            · right
              refine ⟨j + 1, by simpa using hj, by omega, by simpa using hget⟩
          · rw [if_neg hlt] at h
            rcases ih (k + 1) _ i s d h with hacc2 | ⟨j, hj, hi, hget⟩
            · exact Or.inl hacc2
            · right
              refine ⟨j + 1, by simpa using hj, by omega, by simpa using hget⟩

lemma findClosestStop_spec (busLng busLat : ℝ) (stops : List RouteStop)
    (h : stops ≠ []) :
    ∃ i s d, findClosestStop busLng busLat stops = some (i, s, d) ∧
      d = calculateDistance busLat busLng s.lat s.lng ∧
      i < stops.length ∧ stops[i]? = some s ∧
      (∀ t ∈ stops, d ≤ calculateDistance busLat busLng t.lat t.lng) := by
  obtain ⟨i, s, d, hres⟩ := findClosestStop_isSome busLng busLat stops h
  rcases findClosestAux_idx busLng busLat stops 0 none i s d hres with h0 | ⟨j, hj, hi, hget⟩
  · exact Option.noConfusion h0
  · subst hi
    refine ⟨0 + j, s, d, hres, ?_, by simpa using hj, by simpa using hget, ?_⟩
    · exact findClosestAux_d_inv busLng busLat stops 0 none (by simp) _ s d hres
    · exact (findClosestAux_min busLng busLat stops 0 none _ s d hres).1

lemma getSmoothedSpeed_fst_ge_one (prevSmoothed : Option ℝ) (currentSpeed : ℝ) :
    1 ≤ (getSmoothedSpeed prevSmoothed currentSpeed).1 := by
  simp only [getSmoothedSpeed]
  exact le_max_left 1 _

lemma calculateBusETA_eq (bus : EtaBus) (route : EtaRoute)
    (prevSmoothed : Option ℝ) (now : ℤ) (i : ℕ) (s : RouteStop) (d : ℝ)
    (hlen : route.stops.length ≠ 0)
    (hres : findClosestStop bus.lng bus.lat route.stops = some (i, s, d)) :
    calculateBusETA bus route prevSmoothed now =
      some { busId := bus.busId, routeId := route.routeId,
             stopId := s.stopId, name := s.name,
             distance := round d,
             eta := max 1 (round (d / 1000 /
               ((getSmoothedSpeed prevSmoothed (bus.speed.getD 0)).1 / 60))),
             routeProgress :=
               if route.stops.length = 1 then none
               else some (round (((i : ℝ) / ((route.stops.length : ℝ) - 1)) * 100)),
             estimatedArrival := now + (round (d / 1000 /
               ((getSmoothedSpeed prevSmoothed (bus.speed.getD 0)).1 / 60))) * 60 * 1000,
             timestamp := now } := by
  rw [calculateBusETA, if_neg hlen, hres]

/-- C4 (amended): for an online bus on a route with at least one stop,
the emitted `eta:update` reports `eta = max(1, m)` where
`m = round(D / 1000 ÷ (s/60))` — `round`, not `ceil` — with `D` the
straight-line distance to the closest stop and `s` the smoothed speed
(floored at 1 km/h), while `estimatedArrival = now + m·60000` uses the
unclamped `m`, not the minimum-1 value. -/
theorem C4_eta_formula_amended :
    ∀ (bus : EtaBus) (route : EtaRoute) (prevSmoothed : Option ℝ) (now : ℤ),
      route.stops ≠ [] →
      ∃ i s d u, findClosestStop bus.lng bus.lat route.stops = some (i, s, d) ∧
        calculateBusETA bus route prevSmoothed now = some u ∧
        d = calculateDistance bus.lat bus.lng s.lat s.lng ∧
        (∀ t ∈ route.stops, d ≤ calculateDistance bus.lat bus.lng t.lat t.lng) ∧
        1 ≤ (getSmoothedSpeed prevSmoothed (bus.speed.getD 0)).1 ∧
        u.distance = round d ∧
        u.eta = max 1 (round (d / 1000 /
          ((getSmoothedSpeed prevSmoothed (bus.speed.getD 0)).1 / 60))) ∧
        u.estimatedArrival = now + (round (d / 1000 /
          ((getSmoothedSpeed prevSmoothed (bus.speed.getD 0)).1 / 60))) * 60 * 1000 ∧
        u.timestamp = now := by
  intro bus route prevSmoothed now hne
  obtain ⟨i, s, d, hres, hd, _, _, hmin⟩ :=
    findClosestStop_spec bus.lng bus.lat route.stops hne
  refine ⟨i, s, d, _, hres,
    calculateBusETA_eq bus route prevSmoothed now i s d
      (fun h0 => hne (List.length_eq_zero.mp h0)) hres,
    hd, hmin, getSmoothedSpeed_fst_ge_one _ _, rfl, rfl, rfl, rfl⟩

/-- C4 witness: instantiating `C4_eta_formula_amended` on the one-stop
route `etaRoute1`. -/
theorem C4_eta_formula_witness :
    etaRoute1.stops ≠ [] ∧
    (∃ i s d u, findClosestStop etaBus0.lng etaBus0.lat etaRoute1.stops =
        some (i, s, d) ∧
      calculateBusETA etaBus0 etaRoute1 none 0 = some u ∧
      d = calculateDistance etaBus0.lat etaBus0.lng s.lat s.lng ∧
      (∀ t ∈ etaRoute1.stops,
        d ≤ calculateDistance etaBus0.lat etaBus0.lng t.lat t.lng) ∧
      1 ≤ (getSmoothedSpeed none (etaBus0.speed.getD 0)).1 ∧
      u.distance = round d ∧
      u.eta = max 1 (round (d / 1000 /
        ((getSmoothedSpeed none (etaBus0.speed.getD 0)).1 / 60))) ∧
      u.estimatedArrival = 0 + (round (d / 1000 /
        ((getSmoothedSpeed none (etaBus0.speed.getD 0)).1 / 60))) * 60 * 1000 ∧
      u.timestamp = 0) := by
  have hne : etaRoute1.stops ≠ [] := by simp [etaRoute1]
  exact ⟨hne, C4_eta_formula_amended etaBus0 etaRoute1 none 0 hne⟩

/-- C4 counterexample: a bus standing on its only stop (distance 0,
smoothed speed 60): the emitted event reports `eta = 1` minute but
`estimatedArrival = now` — the arrival time is computed from the raw
rounded `etaMinutes = 0`, not from the minimum-1 value the claim
asserts. -/
theorem C4_estimatedArrival_counterexample :
    (calculateBusETA etaBus0 etaRoute1 none 0).map (fun u => u.eta) = some 1 ∧
    (calculateBusETA etaBus0 etaRoute1 none 0).map (fun u => u.estimatedArrival) =
      some 0 ∧
    (0 : ℤ) ≠ 0 + 1 * 60 * 1000 := by
  have hres : findClosestStop etaBus0.lng etaBus0.lat etaRoute1.stops =
      some (0, { stopId := "S1", name := "Stop 1", lng := 0, lat := 0 },
        calculateDistance 0 0 0 0) := rfl
  have heq := calculateBusETA_eq etaBus0 etaRoute1 none 0 0
    { stopId := "S1", name := "Stop 1", lng := 0, lat := 0 }
    (calculateDistance 0 0 0 0) (by simp [etaRoute1]) hres
  have hd0 : calculateDistance (0 : ℝ) 0 0 0 = 0 := calculateDistance_self 0 0
  have hsp : (getSmoothedSpeed none (etaBus0.speed.getD 0)).1 = 60 := by
    show (getSmoothedSpeed none ((some (60 : ℝ)).getD 0)).1 = 60
    simp only [getSmoothedSpeed, Option.getD_some]
    norm_num
  have hm : round (calculateDistance (0 : ℝ) 0 0 0 / 1000 /
      ((getSmoothedSpeed none (etaBus0.speed.getD 0)).1 / 60)) = 0 := by
    rw [hd0, hsp]
    norm_num
  rw [heq]
  refine ⟨?_, ?_, by decide⟩
  · simp only [Option.map_some]
    rw [show (max 1 (round (calculateDistance (0 : ℝ) 0 0 0 / 1000 /
      ((getSmoothedSpeed none (etaBus0.speed.getD 0)).1 / 60))) : ℤ) =
        max 1 0 from by rw [hm]]
    rfl
  · simp only [Option.map_some]
    rw [show ((0 : ℤ) + (round (calculateDistance (0 : ℝ) 0 0 0 / 1000 /
      ((getSmoothedSpeed none (etaBus0.speed.getD 0)).1 / 60))) * 60 * 1000 : ℤ) =
        0 + 0 * 60 * 1000 from by rw [hm]]
    rfl

/-- C9 (amended): for an online bus on a route with at least two stops,
the emitted `routeProgress` equals
`round(100 · closestIndex / (|stops| − 1))` — the ratio is scaled to a
percentage and rounded — where `closestIndex` indexes a stop of minimal
straight-line distance, and the divisor `|stops| − 1` is nonzero.  (With
exactly one stop the divisor is zero and the emitted value is `NaN`.) -/
theorem C9_routeProgress_amended :
    ∀ (bus : EtaBus) (route : EtaRoute) (prevSmoothed : Option ℝ) (now : ℤ),
      2 ≤ route.stops.length →
      ∃ i s d u, findClosestStop bus.lng bus.lat route.stops = some (i, s, d) ∧
        calculateBusETA bus route prevSmoothed now = some u ∧
        i < route.stops.length ∧ route.stops[i]? = some s ∧
        d = calculateDistance bus.lat bus.lng s.lat s.lng ∧
        (∀ t ∈ route.stops, d ≤ calculateDistance bus.lat bus.lng t.lat t.lng) ∧
        ((route.stops.length : ℝ) - 1 ≠ 0) ∧
        u.routeProgress =
          some (round (((i : ℝ) / ((route.stops.length : ℝ) - 1)) * 100)) := by
  intro bus route prevSmoothed now h2
  have hne : route.stops ≠ [] := by
    intro h0
    rw [h0] at h2
    simp at h2
  obtain ⟨i, s, d, hres, hd, hidx, hget, hmin⟩ :=
    findClosestStop_spec bus.lng bus.lat route.stops hne
  refine ⟨i, s, d, _, hres,
    calculateBusETA_eq bus route prevSmoothed now i s d (by omega) hres,
    hidx, hget, hd, hmin, ?_, ?_⟩
  · have : (2 : ℝ) ≤ (route.stops.length : ℝ) := by exact_mod_cast h2
    intro hcontra
    have : (route.stops.length : ℝ) = 1 := by linarith
    have : route.stops.length = 1 := by exact_mod_cast this
    omega
  · show (if route.stops.length = 1 then none
      else some (round (((i : ℝ) / ((route.stops.length : ℝ) - 1)) * 100))) = _
    rw [if_neg (by omega)]

/-- C9 witness: instantiating `C9_routeProgress_amended` on the
two-stop route `etaRoute3`. -/
theorem C9_routeProgress_witness :
    2 ≤ etaRoute3.stops.length ∧
    (∃ i s d u, findClosestStop etaBus0.lng etaBus0.lat etaRoute3.stops =
        some (i, s, d) ∧
      calculateBusETA etaBus0 etaRoute3 none 0 = some u ∧
      i < etaRoute3.stops.length ∧ etaRoute3.stops[i]? = some s ∧
      d = calculateDistance etaBus0.lat etaBus0.lng s.lat s.lng ∧
      (∀ t ∈ etaRoute3.stops,
        d ≤ calculateDistance etaBus0.lat etaBus0.lng t.lat t.lng) ∧
      ((etaRoute3.stops.length : ℝ) - 1 ≠ 0) ∧
      u.routeProgress =
        some (round (((i : ℝ) / ((etaRoute3.stops.length : ℝ) - 1)) * 100))) := by
  have h2 : 2 ≤ etaRoute3.stops.length := by simp [etaRoute3]
  exact ⟨h2, C9_routeProgress_amended etaBus0 etaRoute3 none 0 h2⟩

/-- C9 counterexample: a route with exactly one stop satisfies the
claim's precondition (≥ 1 stop) yet the divisor `|stops| − 1` is zero:
the worker still emits the event and `routeProgress` is `NaN` (modelled
`none`), not a finite number. -/
theorem C9_single_stop_counterexample :
    etaRoute2.stops.length = 1 ∧
    ((etaRoute2.stops.length : ℝ) - 1 = 0) ∧
    (calculateBusETA etaBus2 etaRoute2 none 0).map (fun u => u.routeProgress) =
      some none := by
  have hres : findClosestStop etaBus2.lng etaBus2.lat etaRoute2.stops =
      some (0, { stopId := "S9", name := "Only stop", lng := 1, lat := 1 },
        calculateDistance 2 2 1 1) := rfl
  have heq := calculateBusETA_eq etaBus2 etaRoute2 none 0 0
    { stopId := "S9", name := "Only stop", lng := 1, lat := 1 }
    (calculateDistance 2 2 1 1) (by simp [etaRoute2]) hres
  refine ⟨rfl, by norm_num [etaRoute2], ?_⟩
  rw [heq]
  rfl

end RouteMaster
